import Mathlib

/-!
Shallow embedding of the two IFC-export scripts of this repository,
`src/server/revit-ifc/export_ifc.py` (interactive pyRevit host) and
`src/server/revit-ifc/rbp_export_ifc.py` (RevitBatchProcessor host).

Modelling conventions:
* Python values coming out of `json.load` are modelled by `Json`.
* Python exceptions that the scripts can raise outside any `try` block are
  modelled by `PyErr` (`.get` on a non-dict raises `AttributeError`;
  `dict.get` with an unhashable key and `str + nonstr` raise `TypeError`).
* `os.path` is modelled with the POSIX flavour (`/` separator), matching the
  path spelling used throughout the repository's documentation.
* Each `print` / `Output` call appends one element to a line list.
* The host document and its export routine are opaque: `HostBehavior` says
  whether `doc.Export` returns a boolean or raises, and how it mutates the
  in-transaction document state (a `Nat`).  .NET-side coercions of option
  values are outside the model: option assignments store the raw value.
* The sidecar file (`params.json` next to the input document) is modelled by
  its observable state `Sidecar`: absent, present-but-unparsable, or parsed
  to a `Json` value.
-/

namespace RevitIfc

/-- A parsed JSON value, as produced by Python's `json.load`. -/
inductive Json where
  | null : Json
  | bool : Bool → Json
  | num : Int → Json
  | str : String → Json
  | arr : List Json → Json
  | obj : List (String × Json) → Json

/-- Python exceptions the scripts can raise outside any `try` block. -/
inductive PyErr where
  | attributeError : PyErr
  | typeError : PyErr
deriving DecidableEq, Repr

/-- The members of `Autodesk.Revit.DB.IFCVersion` the scripts mention. -/
inductive IFCVersion where
  | IFC2x3CV2 : IFCVersion
  | IFC4 : IFCVersion
deriving DecidableEq, Repr

/-- Observable state of the sidecar `params.json` file. -/
inductive Sidecar where
  | absent : Sidecar
  | unparsable : String → Sidecar
  | parsed : Json → Sidecar

/-- Split a path at its last slash: `(head including the slash, tail)`. -/
def pySplitPath (s : String) : String × String :=
  let r := s.data.reverse
  (⟨(r.dropWhile (fun c => c ≠ '/')).reverse⟩, ⟨(r.takeWhile (fun c => c ≠ '/')).reverse⟩)

/-- `posixpath.basename`. -/
def basename (s : String) : String := (pySplitPath s).2

/-- `posixpath.dirname`: head up to the last slash, trailing slashes stripped
unless the head is all slashes. -/
def dirname (s : String) : String :=
  let h := (pySplitPath s).1
  if h = "" then ""
  else if h.data.all (fun c => c = '/') then h
  else ⟨(h.data.reverse.dropWhile (fun c => c = '/')).reverse⟩

/-- `posixpath.splitext(s)[0]` for a string with no slash: drop the extension
after the last dot, unless everything before that dot is dots. -/
def splitextRoot (s : String) : String :=
  let r := s.data.reverse
  let ext := r.takeWhile (fun c => c ≠ '.')
  if ext.length = s.data.length then s
  else
    let rootRev := r.drop (ext.length + 1)
    if rootRev.all (fun c => c = '.') then s else ⟨rootRev.reverse⟩

/-- Python `s.startswith(pre)`, over the character list. -/
def pyStartsWith (s pre : String) : Bool := pre.data.isPrefixOf s.data

/-- Python `s.endswith(suf)`, over the character list. -/
def pyEndsWith (s suf : String) : Bool := suf.data.isSuffixOf s.data

/-- `posixpath.join` restricted to two components, as used by the scripts. -/
def pyJoin (a b : String) : String :=
  if pyStartsWith b "/" then b
  else if a = "" ∨ pyEndsWith a "/" then a ++ b
  else a ++ "/" ++ b

/-- Python `a or b` on strings (empty string is falsy). -/
def por (a b : String) : String := if a = "" then b else a

/-- Lookup in a Python dict built from a key/value list: the last binding of a
key wins, as with duplicate keys in `json.load`. -/
def lookupLast : List (String × Json) → String → Option Json
  | [], _ => none
  | kv :: rest, k =>
    match lookupLast rest k with
    | some v => some v
    | none => if kv.1 = k then some kv.2 else none

/-- Python `p.get(k, d)`: defined on dicts, `AttributeError` on anything
else. -/
def dictGet (p : Json) (k : String) (d : Json) : Except PyErr Json :=
  match p with
  | .obj kvs => .ok ((lookupLast kvs k).getD d)
  | _ => .error .attributeError

/-- `IFC_VERSIONS.get(version_key, IFCVersion.IFC4)`: the dict maps the string
keys `IFC2x3` and `IFC4`; a non-string hashable key misses and yields the
default; an unhashable key (list or dict) raises `TypeError`. -/
def IFC_VERSIONS_get (key : Json) : Except PyErr IFCVersion :=
  match key with
  | .str s => .ok (if s = "IFC2x3" then .IFC2x3CV2 else .IFC4)
  | .arr _ => .error .typeError
  | .obj _ => .error .typeError
  | _ => .ok .IFC4

/-- Python `"literal" + v`: succeeds only when `v` is a string, otherwise
`TypeError`. -/
def pyStrOf : Json → Except PyErr String
  | .str s => .ok s
  | _ => .error .typeError

/-- The `IFCExportOptions` object as configured by the scripts. -/
structure IFCExportOptions where
  fileVersion : IFCVersion
  wallAndColumnSplitting : Json
  exportBaseQuantities : Json
  addedOptions : List (String × String)

/-- The three `options.AddOption` calls, made unconditionally in both
scripts. -/
def fixedAddedOptions : List (String × String) :=
  [("ExportInternalRevitPropertySets", "true"),
   ("ExportIFCCommonPropertySets", "true"),
   ("SitePlacement", "0")]

/-- Option building (source lines: `version_key`/`ifc_version` and the
`options` block of either script). -/
def buildOptionsJ (params : Json) : Except PyErr IFCExportOptions :=
  match dictGet params "ifcVersion" (.str "IFC4") with
  | .error e => .error e
  | .ok vk =>
    match IFC_VERSIONS_get vk with
    | .error e => .error e
    | .ok v =>
      match dictGet params "wallSplitting" (.bool false) with
      | .error e => .error e
      | .ok ws =>
        match dictGet params "exportBaseQuantities" (.bool true) with
        | .error e => .error e
        | .ok ebq =>
          .ok { fileVersion := v, wallAndColumnSplitting := ws,
                exportBaseQuantities := ebq, addedOptions := fixedAddedOptions }

/-- Output directory / name resolution (`output_dir` / `output_name` and the
`if output_path:` override of the interactive script; the batch script passes
no override). -/
def resolveOutput (params : Json) (inputPath : String) (outputArg : Option String) :
    Except PyErr (Json × Json) :=
  match dictGet params "outputDir" (.str (dirname inputPath)) with
  | .error e => .error e
  | .ok od =>
    match dictGet params "outputName" (.str (splitextRoot (basename inputPath) ++ ".ifc")) with
    | .error e => .error e
    | .ok onm =>
      .ok (match outputArg with
        | some op => if op = "" then (od, onm) else (.str (dirname op), .str (basename op))
        | none => (od, onm))

/-- The warning line emitted when the sidecar file cannot be read. -/
def warnLine (e : String) : String := "WARN: Could not read params.json: " ++ e

/-- Reading `params.json`: returns the resulting `params` value and the lines
emitted while loading. -/
def readParams : Sidecar → Json × List String
  | .absent => (.obj [], [])
  | .unparsable e => (.obj [], [warnLine e])
  | .parsed j => (j, [])

/-- One step of the interactive script's argument scan: skip `--` flags,
first bare argument is the input path, second the output path. -/
def argStep (acc : Option String × Option String) (arg : String) :
    Option String × Option String :=
  if pyStartsWith arg "--" then acc
  else
    match acc with
    | (none, o) => (some arg, o)
    | (some i, none) => (some i, some arg)
    | x => x

/-- The interactive script's `for arg in script_args:` loop. -/
def parseArgs (args : List String) : Option String × Option String :=
  args.foldl argStep (none, none)

/-- A Revit transaction over an abstract document state: `persisted` is what
is on disk / in the model, `working` the in-transaction copy when one is
open. -/
structure TxState where
  persisted : Nat
  working : Option Nat

/-- `t.Start()`. -/
def txStart (s : TxState) : TxState := { s with working := some s.persisted }

/-- `t.RollBack()`: the working copy is discarded. -/
def txRollBack (s : TxState) : TxState := { s with working := none }

/-- `t.Commit()`: would persist the working copy.  Never called by either
script; defined to make the rollback theorems contentful. -/
def txCommit (s : TxState) : TxState :=
  { persisted := s.working.getD s.persisted, working := none }

/-- Leaving the `with Transaction(...)` block: disposing a still-open
transaction rolls it back. -/
def txDispose (s : TxState) : TxState :=
  match s.working with
  | some _ => txRollBack s
  | none => s

/-- `doc.Export` mutating the in-transaction document state. -/
def exportEffect (eff : Nat → Nat) (s : TxState) : TxState :=
  { s with working := s.working.map eff }

/-- Behaviour of the opaque host call `doc.Export(dir, name, options)`:
either return a boolean or raise, in both cases after applying some effect to
the in-transaction document. -/
inductive HostBehavior where
  | returns : Bool → (Nat → Nat) → HostBehavior
  | raises : String → (Nat → Nat) → HostBehavior

/-- The `with Transaction(doc, "Jens IFC Export") as t:` block around the
export call: start, export, roll back; on an exception the `with` exit
disposes (and thereby rolls back) the open transaction and re-raises. -/
def withTx (d : Nat) (host : HostBehavior) : Except String Bool × Nat :=
  let s1 := txStart { persisted := d, working := none }
  match host with
  | .returns b eff =>
    let s2 := exportEffect eff s1
    let s3 := txRollBack s2
    let s4 := txDispose s3
    (.ok b, s4.persisted)
  | .raises msg eff =>
    let s2 := exportEffect eff s1
    let s3 := txDispose s2
    (.error msg, s3.persisted)

/-- Observable result of one script invocation: the lines written, the
persisted document state afterwards, the arguments of the `doc.Export` call
when one was made, and the uncaught exception if the script crashed. -/
structure RunResult where
  lines : List String
  persistedDoc : Nat
  exportCall : Option (String × String × IFCExportOptions)
  uncaught : Option PyErr

/-- The part shared verbatim by the two scripts (lines 71-134 of
`export_ifc.py` and lines 52-109 of `rbp_export_ifc.py`): version lookup,
option building, output resolution, the status prints and the guarded export.
`params`/`warns` come from the sidecar read, `inputPath` is the resolved
input path, `echo` the value printed on the `INPUT_PATH:` line, `outputArg`
the explicit output-path argument (always `none` for the batch host). -/
def exportTail (params : Json) (warns : List String) (inputPath echo : String)
    (outputArg : Option String) (host : HostBehavior) (doc0 : Nat) : RunResult :=
  match dictGet params "ifcVersion" (.str "IFC4") with
  | .error e => ⟨warns, doc0, none, some e⟩
  | .ok versionKey =>
    match buildOptionsJ params with
    | .error e => ⟨warns, doc0, none, some e⟩
    | .ok options =>
      match resolveOutput params inputPath outputArg with
      | .error e => ⟨warns, doc0, none, some e⟩
      | .ok out =>
        let l1 := warns ++ ["EXPORT_START", "INPUT_PATH:" ++ echo]
        match pyStrOf out.1 with
        | .error e => ⟨l1, doc0, none, some e⟩
        | .ok outputDir =>
          let l2 := l1 ++ ["OUTPUT_DIR:" ++ outputDir]
          match pyStrOf out.2 with
          | .error e => ⟨l2, doc0, none, some e⟩
          | .ok outputName =>
            let l3 := l2 ++ ["OUTPUT_NAME:" ++ outputName]
            match pyStrOf versionKey with
            | .error e => ⟨l3, doc0, none, some e⟩
            | .ok vks =>
              let l4 := l3 ++ ["IFC_VERSION:" ++ vks]
              let tx := withTx doc0 host
              match tx.1 with
              | .ok b =>
                if b then
                  ⟨l4 ++ ["EXPORT_RESULT:SUCCESS",
                          "OUTPUT_PATH:" ++ pyJoin outputDir outputName],
                   tx.2, some (outputDir, outputName, options), none⟩
                else
                  ⟨l4 ++ ["EXPORT_RESULT:FAILED",
                          "ERROR:Revit Document.Export() returned False"],
                   tx.2, some (outputDir, outputName, options), none⟩
              | .error msg =>
                ⟨l4 ++ ["EXPORT_RESULT:ERROR", "ERROR:" ++ msg],
                 tx.2, some (outputDir, outputName, options), none⟩

/-- The interactive entry point `export_ifc.py`, from argument scan to the
final report.  `docPath` is `doc.PathName`, `sidecar` the state of the file
at `dirname(input_path)/params.json`, `doc0` the persisted document state.
The sidecar is read only when the input path is truthy, and the `INPUT_PATH:`
line prints `input_path or doc.PathName`. -/
def runInteractive (args : List String) (docPath : String) (sidecar : Sidecar)
    (host : HostBehavior) (doc0 : Nat) : RunResult :=
  let parsed := parseArgs args
  let inputPath :=
    match parsed.1 with
    | some s => por s docPath
    | none => docPath
  let loaded := if inputPath ≠ "" then readParams sidecar else (.obj [], [])
  exportTail loaded.1 loaded.2 inputPath (por inputPath docPath) parsed.2 host doc0

/-- The batch entry point `rbp_export_ifc.py`: the input path is always
`doc.PathName`, there are no command-line path arguments, and the sidecar is
read unconditionally. -/
def runBatch (docPath : String) (sidecar : Sidecar)
    (host : HostBehavior) (doc0 : Nat) : RunResult :=
  let loaded := readParams sidecar
  exportTail loaded.1 loaded.2 docPath docPath none host doc0

/-! Specification-side predicates, stated from the claims being checked. -/

/-- The consulted field is either absent or holds a string. -/
def strOrAbsent : Option Json → Bool
  | none => true
  | some (.str _) => true
  | some _ => false

/-- The parsed sidecar value is a JSON object whose consulted string fields
(`ifcVersion`, `outputDir`, `outputName`) are strings when present. -/
def paramsOk : Json → Bool
  | .obj kvs =>
    strOrAbsent (lookupLast kvs "ifcVersion")
      && strOrAbsent (lookupLast kvs "outputDir")
      && strOrAbsent (lookupLast kvs "outputName")
  | _ => false

/-- Sidecar states whose consulted fields are well-typed. -/
def sidecarOk : Sidecar → Bool
  | .absent => true
  | .unparsable _ => true
  | .parsed j => paramsOk j

/-- The five fixed-order header lines of the status protocol. -/
def headerLines (inp dir name ver : String) : List String :=
  ["EXPORT_START", "INPUT_PATH:" ++ inp, "OUTPUT_DIR:" ++ dir,
   "OUTPUT_NAME:" ++ name, "IFC_VERSION:" ++ ver]

/-- Is this line the terminal `EXPORT_RESULT:` line (one of its three
possible values)? -/
def isResultLine (s : String) : Bool :=
  s == "EXPORT_RESULT:SUCCESS" || s == "EXPORT_RESULT:FAILED"
    || s == "EXPORT_RESULT:ERROR"

/-- The sidecar keys recognized by the scripts. -/
def recognizedKeys : List String :=
  ["ifcVersion", "wallSplitting", "exportBaseQuantities", "outputDir", "outputName"]

/-- The effective input path of the interactive script: the first bare
argument when truthy, else `doc.PathName`. -/
def effInput (args : List String) (docPath : String) : String :=
  match (parseArgs args).1 with
  | some s => por s docPath
  | none => docPath

/-- The well-formed status-line protocol of one invocation, as the spec
states it: optionally one warning line, then the five header lines in fixed
order, then the result lines determined by the host outcome (`OUTPUT_PATH:`
with the joined path exactly on success, `ERROR:` exactly on failure or
error, carrying the stringified exception when the host raised). -/
def ProtocolShape (r : RunResult) (host : HostBehavior) : Prop :=
  ∃ w inp dir name ver rest,
    r.lines = w ++ headerLines inp dir name ver ++ rest ∧
    (w = [] ∨ ∃ m, w = [warnLine m]) ∧
    (∀ eff, host = .returns true eff →
      rest = ["EXPORT_RESULT:SUCCESS", "OUTPUT_PATH:" ++ pyJoin dir name]) ∧
    (∀ eff, host = .returns false eff →
      rest = ["EXPORT_RESULT:FAILED", "ERROR:Revit Document.Export() returned False"]) ∧
    (∀ m eff, host = .raises m eff →
      rest = ["EXPORT_RESULT:ERROR", "ERROR:" ++ m])

/-! Helper lemmas. -/

lemma withTx_persisted (d : Nat) (host : HostBehavior) : (withTx d host).2 = d := by
  cases host <;> rfl

lemma por_self (a : String) : por a a = a := by
  unfold por; exact ite_self a

lemma strOrAbsent_iff (o : Option Json) :
    strOrAbsent o = true ↔ o = none ∨ ∃ s, o = some (.str s) := by
  cases o with
  | none => simp [strOrAbsent]
  | some j => cases j <;> simp [strOrAbsent]

lemma foldl_argStep_flags (args : List String)
    (h : ∀ a ∈ args, pyStartsWith a "--" = true) :
    ∀ acc, args.foldl argStep acc = acc := by
  induction args with
  | nil => intro acc; rfl
  | cons a rest ih =>
    intro acc
    have ha : pyStartsWith a "--" = true := h a (by simp)
    have hrest : ∀ b ∈ rest, pyStartsWith b "--" = true := fun b hb => h b (by simp [hb])
    simp only [List.foldl_cons, argStep, ha, if_true]
    exact ih hrest acc

lemma parseArgs_flags (args : List String)
    (h : ∀ a ∈ args, pyStartsWith a "--" = true) : parseArgs args = (none, none) :=
  foldl_argStep_flags args h (none, none)

/-- A string with the given prefix differs from `t` whenever the characters
at index 1 differ. -/
lemma append_ne_at1 (pre x t : String) (h1 : 1 < pre.data.length)
    (h2 : pre.data[1]? ≠ t.data[1]?) : pre ++ x ≠ t := by
  intro he
  apply h2
  have hd : pre.data ++ x.data = t.data := by rw [← String.data_append, he]
  rw [← hd, List.getElem?_append_left h1]

/-- No line built from a prefix whose second character is not `X` is the
terminal `EXPORT_RESULT:` line. -/
lemma isResultLine_append_false (pre x : String) (h1 : 1 < pre.data.length)
    (h2 : pre.data[1]? ≠ some 'X') : isResultLine (pre ++ x) = false := by
  have t1 : pre ++ x ≠ "EXPORT_RESULT:SUCCESS" :=
    append_ne_at1 pre x _ h1 (by intro h; exact h2 (by rw [h]; rfl))
  have t2 : pre ++ x ≠ "EXPORT_RESULT:FAILED" :=
    append_ne_at1 pre x _ h1 (by intro h; exact h2 (by rw [h]; rfl))
  have t3 : pre ++ x ≠ "EXPORT_RESULT:ERROR" :=
    append_ne_at1 pre x _ h1 (by intro h; exact h2 (by rw [h]; rfl))
  simp only [isResultLine, Bool.or_eq_false_iff]
  exact ⟨⟨beq_eq_false_iff_ne.mpr t1, beq_eq_false_iff_ne.mpr t2⟩,
    beq_eq_false_iff_ne.mpr t3⟩

lemma isResultLine_warn (m : String) : isResultLine (warnLine m) = false :=
  isResultLine_append_false "WARN: Could not read params.json: " m
    (by decide) (by decide)

lemma withTx_returns (d : Nat) (b : Bool) (eff : Nat → Nat) :
    withTx d (.returns b eff) = (.ok b, d) := rfl

lemma withTx_raises (d : Nat) (m : String) (eff : Nat → Nat) :
    withTx d (.raises m eff) = (.error m, d) := rfl

/-- Core shape of the shared tail on a well-typed parameter object: it never
crashes, and its lines are the warnings, the five fixed header lines, then the
result lines determined by the host outcome. -/
lemma exportTail_shape (kvs : List (String × Json)) (hOk : paramsOk (.obj kvs) = true)
    (warns : List String) (inputPath echo : String) (outputArg : Option String)
    (host : HostBehavior) (doc0 : Nat) :
    ∃ dir name ver rest,
      (exportTail (.obj kvs) warns inputPath echo outputArg host doc0).lines
        = warns ++ headerLines echo dir name ver ++ rest ∧
      (exportTail (.obj kvs) warns inputPath echo outputArg host doc0).uncaught = none ∧
      (∀ eff, host = .returns true eff →
        rest = ["EXPORT_RESULT:SUCCESS", "OUTPUT_PATH:" ++ pyJoin dir name]) ∧
      (∀ eff, host = .returns false eff →
        rest = ["EXPORT_RESULT:FAILED", "ERROR:Revit Document.Export() returned False"]) ∧
      (∀ m eff, host = .raises m eff →
        rest = ["EXPORT_RESULT:ERROR", "ERROR:" ++ m]) := by
  have h123 := hOk
  unfold paramsOk at h123
  rw [Bool.and_eq_true, Bool.and_eq_true] at h123
  obtain ⟨⟨h1, h2⟩, h3⟩ := h123
  obtain ⟨vkS, hvk⟩ : ∃ s, (lookupLast kvs "ifcVersion").getD (.str "IFC4") = Json.str s := by
    rcases (strOrAbsent_iff _).1 h1 with hn | ⟨s, hs⟩
    · exact ⟨"IFC4", by rw [hn]; rfl⟩
    · exact ⟨s, by rw [hs]; rfl⟩
  obtain ⟨dirS, hdir⟩ :
      ∃ s, (lookupLast kvs "outputDir").getD (.str (dirname inputPath)) = Json.str s := by
    rcases (strOrAbsent_iff _).1 h2 with hn | ⟨s, hs⟩
    · exact ⟨dirname inputPath, by rw [hn]; rfl⟩
    · exact ⟨s, by rw [hs]; rfl⟩
  obtain ⟨nameS, hname⟩ :
      ∃ s, (lookupLast kvs "outputName").getD
        (.str (splitextRoot (basename inputPath) ++ ".ifc")) = Json.str s := by
    rcases (strOrAbsent_iff _).1 h3 with hn | ⟨s, hs⟩
    · exact ⟨splitextRoot (basename inputPath) ++ ".ifc", by rw [hn]; rfl⟩
    · exact ⟨s, by rw [hs]; rfl⟩
  have hvk' : dictGet (.obj kvs) "ifcVersion" (.str "IFC4") = .ok (.str vkS) := by
    simp only [dictGet]; rw [hvk]
  have hod : dictGet (.obj kvs) "outputDir" (.str (dirname inputPath)) = .ok (.str dirS) := by
    simp only [dictGet]; rw [hdir]
  have hon : dictGet (.obj kvs) "outputName"
      (.str (splitextRoot (basename inputPath) ++ ".ifc")) = .ok (.str nameS) := by
    simp only [dictGet]; rw [hname]
  have hopts : buildOptionsJ (.obj kvs) =
      .ok { fileVersion := if vkS = "IFC2x3" then .IFC2x3CV2 else .IFC4,
            wallAndColumnSplitting := (lookupLast kvs "wallSplitting").getD (.bool false),
            exportBaseQuantities := (lookupLast kvs "exportBaseQuantities").getD (.bool true),
            addedOptions := fixedAddedOptions } := by
    unfold buildOptionsJ
    rw [hvk']
    rfl
  obtain ⟨dS, nS, hres⟩ :
      ∃ d n, resolveOutput (.obj kvs) inputPath outputArg = .ok (.str d, .str n) := by
    unfold resolveOutput
    rw [hod, hon]
    rcases outputArg with _ | op
    · exact ⟨dirS, nameS, rfl⟩
    · by_cases hop : op = ""
      · exact ⟨dirS, nameS, by simp [hop]⟩
      · exact ⟨dirname op, basename op, by simp [hop]⟩
  rcases host with ⟨b, eff⟩ | ⟨m, eff⟩
  · cases b
    · refine ⟨dS, nS, vkS,
        ["EXPORT_RESULT:FAILED", "ERROR:Revit Document.Export() returned False"],
        ?_, ?_, ?_, ?_, ?_⟩
      · simp [exportTail, hvk', hopts, hres, pyStrOf, withTx_returns, headerLines]
      · simp [exportTail, hvk', hopts, hres, pyStrOf, withTx_returns]
      · intro eff2 h; simp at h
      · intro eff2 h; rfl
      · intro m2 eff2 h; simp at h
    · refine ⟨dS, nS, vkS,
        ["EXPORT_RESULT:SUCCESS", "OUTPUT_PATH:" ++ pyJoin dS nS],
        ?_, ?_, ?_, ?_, ?_⟩
      · simp [exportTail, hvk', hopts, hres, pyStrOf, withTx_returns, headerLines]
      · simp [exportTail, hvk', hopts, hres, pyStrOf, withTx_returns]
      · intro eff2 h; rfl
      · intro eff2 h; simp at h
      · intro m2 eff2 h; simp at h
  · refine ⟨dS, nS, vkS, ["EXPORT_RESULT:ERROR", "ERROR:" ++ m], ?_, ?_, ?_, ?_, ?_⟩
    · simp [exportTail, hvk', hopts, hres, pyStrOf, withTx_raises, headerLines]
    · simp [exportTail, hvk', hopts, hres, pyStrOf, withTx_raises]
    · intro eff2 h; simp at h
    · intro eff2 h; simp at h
    · intro m2 eff2 h
      injection h with hm
      rw [← hm]

lemma runInteractive_eq (args : List String) (dp : String) (sc : Sidecar)
    (host : HostBehavior) (d0 : Nat) :
    runInteractive args dp sc host d0 =
      exportTail (if effInput args dp ≠ "" then readParams sc else (.obj [], [])).1
        (if effInput args dp ≠ "" then readParams sc else (.obj [], [])).2
        (effInput args dp) (por (effInput args dp) dp) (parseArgs args).2 host d0 := rfl

lemma runBatch_eq (dp : String) (sc : Sidecar) (host : HostBehavior) (d0 : Nat) :
    runBatch dp sc host d0 =
      exportTail (readParams sc).1 (readParams sc).2 dp dp none host d0 := rfl

/-- Shape of a full interactive invocation under a well-typed sidecar. -/
lemma runInteractive_shape (args : List String) (dp : String) (sc : Sidecar)
    (host : HostBehavior) (d0 : Nat) (h : sidecarOk sc = true) :
    ∃ w inp dir name ver rest,
      (runInteractive args dp sc host d0).lines
        = w ++ headerLines inp dir name ver ++ rest ∧
      (runInteractive args dp sc host d0).uncaught = none ∧
      (w = [] ∨ ∃ m, w = [warnLine m]) ∧
      (∀ eff, host = .returns true eff →
        rest = ["EXPORT_RESULT:SUCCESS", "OUTPUT_PATH:" ++ pyJoin dir name]) ∧
      (∀ eff, host = .returns false eff →
        rest = ["EXPORT_RESULT:FAILED", "ERROR:Revit Document.Export() returned False"]) ∧
      (∀ m eff, host = .raises m eff →
        rest = ["EXPORT_RESULT:ERROR", "ERROR:" ++ m]) := by
  rw [runInteractive_eq]
  set ip := effInput args dp with hipdef
  by_cases hip : ip = ""
  · rw [if_neg (not_not_intro hip)]
    obtain ⟨dir, name, ver, rest, h1, h2, h3, h4, h5⟩ :=
      exportTail_shape [] (by rfl) [] ip (por ip dp) (parseArgs args).2 host d0
    exact ⟨[], por ip dp, dir, name, ver, rest, h1, h2, Or.inl rfl, h3, h4, h5⟩
  · rw [if_pos hip]
    cases sc with
    | absent =>
      obtain ⟨dir, name, ver, rest, h1, h2, h3, h4, h5⟩ :=
        exportTail_shape [] (by rfl) [] ip (por ip dp) (parseArgs args).2 host d0
      exact ⟨[], por ip dp, dir, name, ver, rest, h1, h2, Or.inl rfl, h3, h4, h5⟩
    | unparsable e =>
      obtain ⟨dir, name, ver, rest, h1, h2, h3, h4, h5⟩ :=
        exportTail_shape [] (by rfl) [warnLine e] ip (por ip dp) (parseArgs args).2 host d0
      exact ⟨[warnLine e], por ip dp, dir, name, ver, rest, h1, h2,
        Or.inr ⟨e, rfl⟩, h3, h4, h5⟩
    | parsed j =>
      cases j with
      | obj kvs =>
        obtain ⟨dir, name, ver, rest, h1, h2, h3, h4, h5⟩ :=
          exportTail_shape kvs (by simpa [sidecarOk] using h) [] ip (por ip dp)
            (parseArgs args).2 host d0
        exact ⟨[], por ip dp, dir, name, ver, rest, h1, h2, Or.inl rfl, h3, h4, h5⟩
      | null => simp [sidecarOk, paramsOk] at h
      | bool b => simp [sidecarOk, paramsOk] at h
      | num n => simp [sidecarOk, paramsOk] at h
      | str s => simp [sidecarOk, paramsOk] at h
      | arr l => simp [sidecarOk, paramsOk] at h

/-- Shape of a full batch invocation under a well-typed sidecar. -/
lemma runBatch_shape (dp : String) (sc : Sidecar)
    (host : HostBehavior) (d0 : Nat) (h : sidecarOk sc = true) :
    ∃ w inp dir name ver rest,
      (runBatch dp sc host d0).lines = w ++ headerLines inp dir name ver ++ rest ∧
      (runBatch dp sc host d0).uncaught = none ∧
      (w = [] ∨ ∃ m, w = [warnLine m]) ∧
      (∀ eff, host = .returns true eff →
        rest = ["EXPORT_RESULT:SUCCESS", "OUTPUT_PATH:" ++ pyJoin dir name]) ∧
      (∀ eff, host = .returns false eff →
        rest = ["EXPORT_RESULT:FAILED", "ERROR:Revit Document.Export() returned False"]) ∧
      (∀ m eff, host = .raises m eff →
        rest = ["EXPORT_RESULT:ERROR", "ERROR:" ++ m]) := by
  rw [runBatch_eq]
  cases sc with
  | absent =>
    obtain ⟨dir, name, ver, rest, h1, h2, h3, h4, h5⟩ :=
      exportTail_shape [] (by rfl) [] dp dp none host d0
    exact ⟨[], dp, dir, name, ver, rest, h1, h2, Or.inl rfl, h3, h4, h5⟩
  | unparsable e =>
    obtain ⟨dir, name, ver, rest, h1, h2, h3, h4, h5⟩ :=
      exportTail_shape [] (by rfl) [warnLine e] dp dp none host d0
    exact ⟨[warnLine e], dp, dir, name, ver, rest, h1, h2, Or.inr ⟨e, rfl⟩, h3, h4, h5⟩
  | parsed j =>
    cases j with
    | obj kvs =>
      obtain ⟨dir, name, ver, rest, h1, h2, h3, h4, h5⟩ :=
        exportTail_shape kvs (by simpa [sidecarOk] using h) [] dp dp none host d0
      exact ⟨[], dp, dir, name, ver, rest, h1, h2, Or.inl rfl, h3, h4, h5⟩
    | null => simp [sidecarOk, paramsOk] at h
    | bool b => simp [sidecarOk, paramsOk] at h
    | num n => simp [sidecarOk, paramsOk] at h
    | str s => simp [sidecarOk, paramsOk] at h
    | arr l => simp [sidecarOk, paramsOk] at h

lemma countP_headerLines (inp dir name ver : String) :
    (headerLines inp dir name ver).countP isResultLine = 0 := by
  have h0 : isResultLine "EXPORT_START" = false := by decide
  have h1 := isResultLine_append_false "INPUT_PATH:" inp (by decide) (by decide)
  have h2 := isResultLine_append_false "OUTPUT_DIR:" dir (by decide) (by decide)
  have h3 := isResultLine_append_false "OUTPUT_NAME:" name (by decide) (by decide)
  have h4 := isResultLine_append_false "IFC_VERSION:" ver (by decide) (by decide)
  simp [headerLines, List.countP_cons, h0, h1, h2, h3, h4]

lemma countP_warns (w : List String) (hw : w = [] ∨ ∃ m, w = [warnLine m]) :
    w.countP isResultLine = 0 := by
  rcases hw with h | ⟨m, h⟩ <;> subst h
  · rfl
  · simp [List.countP_cons, isResultLine_warn]

lemma countP_shape_one (r : RunResult) (host : HostBehavior)
    (h : ProtocolShape r host) : r.lines.countP isResultLine = 1 := by
  obtain ⟨w, inp, dir, name, ver, rest, hl, hw, hs, hf, he⟩ := h
  rw [hl, List.countP_append, List.countP_append, countP_warns w hw,
    countP_headerLines]
  rcases host with ⟨b, eff⟩ | ⟨m, eff⟩
  · cases b
    · rw [hf eff rfl]
      have := isResultLine_append_false "ERROR:" "Revit Document.Export() returned False"
        (by decide) (by decide)
      simp [List.countP_cons, isResultLine]
    · rw [hs eff rfl]
      have h2 := isResultLine_append_false "OUTPUT_PATH:" (pyJoin dir name)
        (by decide) (by decide)
      simp [List.countP_cons, h2]
      decide
  · rw [he m eff rfl]
    have h2 := isResultLine_append_false "ERROR:" m (by decide) (by decide)
    simp [List.countP_cons, h2]
    decide

lemma exportTail_persisted (params : Json) (warns : List String) (ip echo : String)
    (oa : Option String) (host : HostBehavior) (d0 : Nat) :
    (exportTail params warns ip echo oa host d0).persistedDoc = d0 := by
  unfold exportTail
  rcases host with ⟨b, eff⟩ | ⟨m, eff⟩
  · cases b <;> (repeat' split) <;> simp [withTx_returns]
  · (repeat' split) <;> simp [withTx_raises]

/-- C1 (amended): for every invocation whose sidecar is absent, unreadable,
or parses to an object whose consulted string fields are strings, both entry
points emit the status lines in the fixed order `EXPORT_START`,
`INPUT_PATH:`, `OUTPUT_DIR:`, `OUTPUT_NAME:`, `IFC_VERSION:`, then exactly
the result lines determined by the host outcome: `EXPORT_RESULT:SUCCESS`
with an `OUTPUT_PATH:` line joining the output directory and name on a
truthy result, `EXPORT_RESULT:FAILED` with the fixed `ERROR:` line on a
falsy result, and `EXPORT_RESULT:ERROR` with the stringified exception when
the host raises.  (The original claim quantified over all sidecar contents;
a sidecar whose `outputDir` is a number crashes the script before the
`EXPORT_RESULT:` line, see the counterexample.) -/
theorem statusLines_wellFormed (args : List String) (dp : String) (sc : Sidecar)
    (host : HostBehavior) (d0 : Nat) (h : sidecarOk sc = true) :
    ProtocolShape (runInteractive args dp sc host d0) host ∧
    ProtocolShape (runBatch dp sc host d0) host := by
  constructor
  · obtain ⟨w, inp, dir, name, ver, rest, hl, hu, hw, hs, hf, he⟩ :=
      runInteractive_shape args dp sc host d0 h
    exact ⟨w, inp, dir, name, ver, rest, hl, hw, hs, hf, he⟩
  · obtain ⟨w, inp, dir, name, ver, rest, hl, hu, hw, hs, hf, he⟩ :=
      runBatch_shape dp sc host d0 h
    exact ⟨w, inp, dir, name, ver, rest, hl, hw, hs, hf, he⟩

/-- Witness for C1's amended theorem at a concrete invocation. -/
theorem statusLines_wellFormed_witness :
    sidecarOk .absent = true ∧
    (ProtocolShape (runInteractive [] "/m/design.rvt" .absent (.returns true id) 0)
        (.returns true id) ∧
      ProtocolShape (runBatch "/m/design.rvt" .absent (.returns true id) 0)
        (.returns true id)) :=
  ⟨by decide, statusLines_wellFormed [] "/m/design.rvt" .absent (.returns true id) 0 (by decide)⟩

/-- Counterexample to C1 as stated: with sidecar `{"outputDir": 5}` the
interactive script crashes at the `OUTPUT_DIR:` print (string concatenation
with a number), so no `EXPORT_RESULT:` line is ever emitted and the status
sequence is not well-formed. -/
theorem statusLines_cex :
    (runInteractive [] "/m/a.rvt" (.parsed (.obj [("outputDir", .num 5)]))
        (.returns true id) 0).lines = ["EXPORT_START", "INPUT_PATH:/m/a.rvt"] ∧
    (runInteractive [] "/m/a.rvt" (.parsed (.obj [("outputDir", .num 5)]))
        (.returns true id) 0).uncaught = some .typeError ∧
    ¬ ProtocolShape (runInteractive [] "/m/a.rvt" (.parsed (.obj [("outputDir", .num 5)]))
        (.returns true id) 0) (.returns true id) := by
  have hl : (runInteractive [] "/m/a.rvt" (.parsed (.obj [("outputDir", .num 5)]))
      (.returns true id) 0).lines = ["EXPORT_START", "INPUT_PATH:/m/a.rvt"] := by decide
  refine ⟨hl, by decide, ?_⟩
  rintro ⟨w, inp, dir, name, ver, rest, hwl, -, -, -, -⟩
  have hlen := congrArg List.length hwl
  rw [hl] at hlen
  simp [headerLines] at hlen
  omega

/-- C2 (confirmed): on every invocation of either entry point — any
arguments, any sidecar state, any host outcome including a raised
exception — the persisted document state afterwards equals the initial one:
the export transaction is always discarded, never committed. -/
theorem transaction_always_discarded (args : List String) (dp : String) (sc : Sidecar)
    (host : HostBehavior) (d0 : Nat) :
    (runInteractive args dp sc host d0).persistedDoc = d0 ∧
    (runBatch dp sc host d0).persistedDoc = d0 ∧
    (withTx d0 host).2 = d0 := by
  rw [runInteractive_eq, runBatch_eq]
  exact ⟨exportTail_persisted _ _ _ _ _ _ _, exportTail_persisted _ _ _ _ _ _ _,
    withTx_persisted d0 host⟩

/-- C3 (amended): for every interactive invocation whose sidecar is absent,
unreadable, or parses to an object whose consulted fields are strings,
nothing is thrown out of the top level (`uncaught = none`) and exactly one
terminal `EXPORT_RESULT:` line is emitted.  (The original claim quantified
over all sidecar contents; a sidecar parsing to a non-object crashes the
script with an uncaught `AttributeError`, see the counterexample.) -/
theorem noThrow_of_wellTypedSidecar (args : List String) (dp : String) (sc : Sidecar)
    (host : HostBehavior) (d0 : Nat) (h : sidecarOk sc = true) :
    (runInteractive args dp sc host d0).uncaught = none ∧
    (runInteractive args dp sc host d0).lines.countP isResultLine = 1 := by
  obtain ⟨w, inp, dir, name, ver, rest, hl, hu, hw, hs, hf, he⟩ :=
    runInteractive_shape args dp sc host d0 h
  exact ⟨hu, countP_shape_one _ host ⟨w, inp, dir, name, ver, rest, hl, hw, hs, hf, he⟩⟩

/-- Witness for C3's amended theorem at a concrete invocation (unreadable
sidecar, raising host). -/
theorem noThrow_of_wellTypedSidecar_witness :
    sidecarOk (.unparsable "bad json") = true ∧
    ((runInteractive [] "/m/a.rvt" (.unparsable "bad json") (.raises "boom" id) 0).uncaught
        = none ∧
      (runInteractive [] "/m/a.rvt" (.unparsable "bad json")
          (.raises "boom" id) 0).lines.countP isResultLine = 1) :=
  ⟨by decide,
    noThrow_of_wellTypedSidecar [] "/m/a.rvt" (.unparsable "bad json")
      (.raises "boom" id) 0 (by decide)⟩

/-- Counterexample to C3 as stated: a sidecar file parsing to the JSON array
`[]` makes `params.get` raise an uncaught `AttributeError` before any status
line is printed — the script crashes with a raw exception and emits no
terminal status sequence. -/
theorem noThrow_cex :
    (runInteractive [] "/m/a.rvt" (.parsed (.arr [])) (.returns true id) 0).uncaught
      = some .attributeError ∧
    (runInteractive [] "/m/a.rvt" (.parsed (.arr [])) (.returns true id) 0).lines = [] := by
  exact ⟨by decide, by decide⟩

lemma exportTail_warns (params : Json) (warns : List String) (ip echo : String)
    (oa : Option String) (host : HostBehavior) (d0 : Nat) :
    exportTail params warns ip echo oa host d0
      = { exportTail params [] ip echo oa host d0 with
          lines := warns ++ (exportTail params [] ip echo oa host d0).lines } := by
  unfold exportTail
  rcases host with ⟨b, eff⟩ | ⟨m, eff⟩
  · cases b <;> (repeat' split) <;> simp_all [withTx_returns]
  · (repeat' split) <;> simp_all [withTx_raises]

/-- C4 (amended): the `IFC_VERSION:` status line reports the sidecar's raw
`ifcVersion` string verbatim (defaulting to `IFC4` only when the field is
absent), while the export itself uses the resolved version, which falls back
to the current-schema default `IFC4` for strings outside the known set.  (The
original claim said the line reports the resolved key; for an unknown string
the line shows the raw key, see the counterexample.) -/
theorem ifcVersionLine_raw_key (dp s : String) (host : HostBehavior) (d0 : Nat)
    (hdp : dp ≠ "") :
    (runInteractive [] dp (.parsed (.obj [("ifcVersion", .str s)])) host d0).lines[4]?
      = some ("IFC_VERSION:" ++ s) ∧
    ((runInteractive [] dp (.parsed (.obj [("ifcVersion", .str s)])) host d0).exportCall.map
        (fun c => c.2.2.fileVersion))
      = some (if s = "IFC2x3" then IFCVersion.IFC2x3CV2 else IFCVersion.IFC4) := by
  have hrw : runInteractive [] dp (.parsed (.obj [("ifcVersion", .str s)])) host d0
      = exportTail (.obj [("ifcVersion", .str s)]) [] dp (por dp dp) none host d0 := by
    rw [runInteractive_eq, if_pos (show effInput [] dp ≠ "" from hdp)]
    rfl
  rw [hrw]
  rcases host with ⟨b, eff⟩ | ⟨m, eff⟩
  · cases b <;>
      simp [exportTail, dictGet, lookupLast, buildOptionsJ, IFC_VERSIONS_get,
        resolveOutput, pyStrOf, withTx_returns]
  · simp [exportTail, dictGet, lookupLast, buildOptionsJ, IFC_VERSIONS_get,
      resolveOutput, pyStrOf, withTx_raises]

/-- Witness for C4's amended theorem at a concrete invocation with an
unknown version string. -/
theorem ifcVersionLine_raw_key_witness :
    ("/m/a.rvt" : String) ≠ "" ∧
    ((runInteractive [] "/m/a.rvt" (.parsed (.obj [("ifcVersion", .str "IFC9")]))
        (.returns true id) 0).lines[4]? = some ("IFC_VERSION:" ++ "IFC9") ∧
      ((runInteractive [] "/m/a.rvt" (.parsed (.obj [("ifcVersion", .str "IFC9")]))
          (.returns true id) 0).exportCall.map (fun c => c.2.2.fileVersion))
        = some (if "IFC9" = "IFC2x3" then IFCVersion.IFC2x3CV2 else IFCVersion.IFC4)) :=
  ⟨by decide,
    ifcVersionLine_raw_key "/m/a.rvt" "IFC9" (.returns true id) 0 (by decide)⟩

/-- Counterexample to C4 as stated: with sidecar
`{"ifcVersion": "IFC9"}` (a string outside the known set) the line printed
is `IFC_VERSION:IFC9`, not the current-schema default key `IFC4`, even
though the export options do resolve to `IFC4`. -/
theorem ifcVersionLine_cex :
    (runInteractive [] "/m/a.rvt" (.parsed (.obj [("ifcVersion", .str "IFC9")]))
        (.returns true id) 0).lines[4]? = some "IFC_VERSION:IFC9" ∧
    "IFC_VERSION:IFC4" ∉ (runInteractive [] "/m/a.rvt"
        (.parsed (.obj [("ifcVersion", .str "IFC9")])) (.returns true id) 0).lines ∧
    ((runInteractive [] "/m/a.rvt" (.parsed (.obj [("ifcVersion", .str "IFC9")]))
        (.returns true id) 0).exportCall.map (fun c => c.2.2.fileVersion))
      = some IFCVersion.IFC4 :=
  ⟨by decide, by decide, by decide⟩

/-- C5 (confirmed): output resolution precedence — a truthy explicit output
path argument supplies directory and name together, overriding everything;
otherwise `params.outputDir` / `params.outputName` are used independently
where present, with the input document's directory and its base name with
the extension replaced by `.ifc` as the per-field defaults. -/
theorem outputPath_precedence (kvs : List (String × Json)) (input p : String)
    (hp : p ≠ "") :
    resolveOutput (.obj kvs) input (some p)
      = .ok (.str (dirname p), .str (basename p)) ∧
    resolveOutput (.obj kvs) input none
      = .ok ((lookupLast kvs "outputDir").getD (.str (dirname input)),
             (lookupLast kvs "outputName").getD
               (.str (splitextRoot (basename input) ++ ".ifc"))) := by
  constructor
  · simp [resolveOutput, dictGet, hp]
  · simp [resolveOutput, dictGet]

/-- Witness for C5's theorem: explicit path wins over job-file values; with
no explicit path the job-file values win. -/
theorem outputPath_precedence_witness :
    ("/e/x.ifc" : String) ≠ "" ∧
    (resolveOutput (.obj [("outputDir", .str "/j"), ("outputName", .str "j.ifc")])
        "/m/a.rvt" (some "/e/x.ifc")
      = .ok (.str (dirname "/e/x.ifc"), .str (basename "/e/x.ifc")) ∧
     resolveOutput (.obj [("outputDir", .str "/j"), ("outputName", .str "j.ifc")])
        "/m/a.rvt" none
      = .ok ((lookupLast [("outputDir", .str "/j"), ("outputName", .str "j.ifc")]
                "outputDir").getD (.str (dirname "/m/a.rvt")),
             (lookupLast [("outputDir", .str "/j"), ("outputName", .str "j.ifc")]
                "outputName").getD
               (.str (splitextRoot (basename "/m/a.rvt") ++ ".ifc")))) :=
  ⟨by decide,
    outputPath_precedence [("outputDir", .str "/j"), ("outputName", .str "j.ifc")]
      "/m/a.rvt" "/e/x.ifc" (by decide)⟩

/-- C6 (confirmed): `ifcVersion` resolution is a total function over
strings: every string resolves without raising, with anything other than
`IFC2x3` resolving to the current-schema default `IFC4`; an absent field
defaults to the key `IFC4`. -/
theorem ifcVersion_resolution_total (s : String) :
    IFC_VERSIONS_get (.str s)
      = .ok (if s = "IFC2x3" then IFCVersion.IFC2x3CV2 else IFCVersion.IFC4) ∧
    dictGet (.obj []) "ifcVersion" (.str "IFC4") = .ok (.str "IFC4") :=
  ⟨rfl, rfl⟩

/-- C7 (confirmed): an absent sidecar yields the empty parameter set with no
warning; an unreadable sidecar yields exactly one `WARN:` line, the empty
parameter set, and an invocation otherwise identical to the absent-sidecar
one (the export proceeds on all defaults). -/
theorem paramsLoader_defaults (dp e : String) (host : HostBehavior) (d0 : Nat) :
    readParams .absent = (.obj [], []) ∧
    readParams (.unparsable e) = (.obj [], [warnLine e]) ∧
    runBatch dp (.unparsable e) host d0
      = { runBatch dp .absent host d0 with
          lines := warnLine e :: (runBatch dp .absent host d0).lines } := by
  refine ⟨rfl, rfl, ?_⟩
  rw [runBatch_eq, runBatch_eq]
  simpa [readParams] using
    exportTail_warns (.obj []) [warnLine e] dp dp none host d0

lemma lookupLast_filter (kvs : List (String × Json)) (k : String)
    (q : String × Json → Bool) (hq : ∀ v, q (k, v) = true) :
    lookupLast (kvs.filter q) k = lookupLast kvs k := by
  induction kvs with
  | nil => rfl
  | cons kv rest ih =>
    by_cases hkv : q kv = true
    · rw [List.filter_cons_of_pos hkv]
      simp only [lookupLast, ih]
    · rw [List.filter_cons_of_neg (by simpa using hkv)]
      rw [ih]
      have hne : kv.1 ≠ k := by
        intro hk
        apply hkv
        have h2 := hq kv.2
        rw [← hk] at h2
        simpa using h2
      cases hl : lookupLast rest k <;> simp [lookupLast, hl, hne]

/-- C8 (amended): whenever option building completes (in particular whenever
the sidecar's `ifcVersion` is absent or any hashable value), the built
options object carries the three policy-fixed `AddOption` settings, and
sidecar keys outside the recognized set have no effect on the built options
object.  (The original claim said the fixed options are set on every
invocation regardless of sidecar content; a sidecar whose `ifcVersion` is a
JSON array crashes option building before any `AddOption` call, see the
counterexample.) -/
theorem fixedOptions_when_built (kvs : List (String × Json)) (o : IFCExportOptions)
    (h : buildOptionsJ (.obj kvs) = .ok o) :
    o.addedOptions = fixedAddedOptions ∧
    buildOptionsJ (.obj (kvs.filter (fun kv => recognizedKeys.contains kv.1)))
      = buildOptionsJ (.obj kvs) := by
  constructor
  · simp only [buildOptionsJ, dictGet] at h
    rcases hv : IFC_VERSIONS_get ((lookupLast kvs "ifcVersion").getD (Json.str "IFC4"))
      with e | v <;> rw [hv] at h
    · simp at h
    · simp only [Except.ok.injEq] at h
      rw [← h]
  · have hq1 : ∀ v, (fun kv : String × Json => recognizedKeys.contains kv.1)
        ("ifcVersion", v) = true := fun v => rfl
    have hq2 : ∀ v, (fun kv : String × Json => recognizedKeys.contains kv.1)
        ("wallSplitting", v) = true := fun v => rfl
    have hq3 : ∀ v, (fun kv : String × Json => recognizedKeys.contains kv.1)
        ("exportBaseQuantities", v) = true := fun v => rfl
    simp only [buildOptionsJ, dictGet,
      lookupLast_filter kvs "ifcVersion" (fun kv => recognizedKeys.contains kv.1) hq1,
      lookupLast_filter kvs "wallSplitting" (fun kv => recognizedKeys.contains kv.1) hq2,
      lookupLast_filter kvs "exportBaseQuantities"
        (fun kv => recognizedKeys.contains kv.1) hq3]

/-- Witness for C8's amended theorem: a sidecar with one recognized and one
junk key builds the fixed options, and filtering out the junk key changes
nothing. -/
theorem fixedOptions_when_built_witness :
    buildOptionsJ (.obj [("ifcVersion", .str "IFC2x3"), ("junk", .num 1)])
      = .ok { fileVersion := .IFC2x3CV2, wallAndColumnSplitting := .bool false,
              exportBaseQuantities := .bool true, addedOptions := fixedAddedOptions } ∧
    (IFCExportOptions.addedOptions
        { fileVersion := .IFC2x3CV2, wallAndColumnSplitting := .bool false,
          exportBaseQuantities := .bool true, addedOptions := fixedAddedOptions }
      = fixedAddedOptions ∧
     buildOptionsJ (.obj ([("ifcVersion", .str "IFC2x3"), ("junk", .num 1)].filter
          (fun kv => recognizedKeys.contains kv.1)))
       = buildOptionsJ (.obj [("ifcVersion", .str "IFC2x3"), ("junk", .num 1)])) :=
  ⟨rfl, fixedOptions_when_built [("ifcVersion", .str "IFC2x3"), ("junk", .num 1)]
    { fileVersion := .IFC2x3CV2, wallAndColumnSplitting := .bool false,
      exportBaseQuantities := .bool true, addedOptions := fixedAddedOptions } rfl⟩

/-- Counterexample to C8 as stated: with sidecar `{"ifcVersion": []}` the
version lookup raises `TypeError` (unhashable key) before the options object
exists, so on that invocation no fixed option is ever set and no export call
is made. -/
theorem fixedOptions_cex :
    buildOptionsJ (.obj [("ifcVersion", .arr [])]) = .error .typeError ∧
    (runInteractive [] "/m/a.rvt" (.parsed (.obj [("ifcVersion", .arr [])]))
        (.returns true id) 0).exportCall = none ∧
    (runInteractive [] "/m/a.rvt" (.parsed (.obj [("ifcVersion", .arr [])]))
        (.returns true id) 0).uncaught = some .typeError :=
  ⟨rfl, rfl, by decide⟩

/-- C9 (amended): for every invocation with a non-empty document path and no
bare command-line arguments (flags only), the interactive and batch entry
points produce identical results: same lines, same persisted document, same
export call, same crash behaviour.  (The original claim quantified over all
document paths; with an empty path the interactive script skips the sidecar
read while the batch script performs it, see the counterexample.) -/
theorem entryPoints_equivalent (args : List String) (dp : String) (sc : Sidecar)
    (host : HostBehavior) (d0 : Nat) (hdp : dp ≠ "")
    (hargs : ∀ a ∈ args, pyStartsWith a "--" = true) :
    runInteractive args dp sc host d0 = runBatch dp sc host d0 := by
  rw [runInteractive_eq, runBatch_eq]
  have he : effInput args dp = dp := by
    unfold effInput; rw [parseArgs_flags args hargs]
  rw [he, if_pos hdp, parseArgs_flags args hargs, por_self]

/-- Witness for C9's amended theorem at a concrete invocation. -/
theorem entryPoints_equivalent_witness :
    ("/m/a.rvt" : String) ≠ "" ∧
    runInteractive ["--revit=2023"] "/m/a.rvt" .absent (.returns true id) 0
      = runBatch "/m/a.rvt" .absent (.returns true id) 0 :=
  ⟨by decide,
    entryPoints_equivalent ["--revit=2023"] "/m/a.rvt" .absent (.returns true id) 0
      (by decide) (by decide)⟩

/-- Counterexample to C9 as stated: with an unsaved document (empty
`doc.PathName`) the interactive script's `if input_path:` guard skips the
sidecar read while the batch script reads it unconditionally, so the two
entry points report different version keys for the same document path and
sidecar state. -/
theorem entryPoints_cex :
    (runInteractive [] "" (.parsed (.obj [("ifcVersion", .str "IFC2x3")]))
        (.returns true id) 0).lines
      ≠ (runBatch "" (.parsed (.obj [("ifcVersion", .str "IFC2x3")]))
        (.returns true id) 0).lines ∧
    (runInteractive [] "" (.parsed (.obj [("ifcVersion", .str "IFC2x3")]))
        (.returns true id) 0).lines[4]? = some "IFC_VERSION:IFC4" ∧
    (runBatch "" (.parsed (.obj [("ifcVersion", .str "IFC2x3")]))
        (.returns true id) 0).lines[4]? = some "IFC_VERSION:IFC2x3" :=
  ⟨by decide, by decide, by decide⟩

lemma pySplitPath_noSlash (s : String) (h : '/' ∉ s.data) : pySplitPath s = ("", s) := by
  have hall : ∀ c ∈ s.data.reverse, (fun c => decide (c ≠ '/')) c = true := by
    intro c hc
    simp only [decide_eq_true_eq]
    intro he
    exact h (he ▸ List.mem_reverse.mp hc)
  show (String.mk (List.dropWhile (fun c => decide (c ≠ '/')) s.data.reverse).reverse,
        String.mk (List.takeWhile (fun c => decide (c ≠ '/')) s.data.reverse).reverse)
      = ("", s)
  rw [List.dropWhile_eq_nil_iff.mpr hall, List.takeWhile_eq_self_iff.mpr hall,
    List.reverse_reverse]
  exact Prod.ext rfl (by cases s; rfl)

lemma dirname_noSlash (s : String) (h : '/' ∉ s.data) : dirname s = "" := by
  simp [dirname, pySplitPath_noSlash s h]

lemma basename_noSlash (s : String) (h : '/' ∉ s.data) : basename s = s := by
  simp [basename, pySplitPath_noSlash s h]

lemma pyJoin_empty (b : String) : pyJoin "" b = b := by
  unfold pyJoin
  by_cases h : pyStartsWith b "/" = true
  · rw [if_pos h]
  · rw [if_neg h, if_pos (Or.inl rfl)]
    simp

/-- C10 (confirmed): in the interactive entry point, a truthy explicit
output-path argument that is a bare file name (no slash) resolves the output
directory to the empty string — neither the input document's directory nor
the sidecar's `outputDir` is substituted — and on success the `OUTPUT_PATH:`
line carries just the bare name. -/
theorem bareOutputName_emptyDir (dp name dv nv : String) (eff : Nat → Nat) (d0 : Nat)
    (hdp : pyStartsWith dp "--" = false) (hname : pyStartsWith name "--" = false)
    (hne : name ≠ "") (hslash : '/' ∉ name.data) :
    (runInteractive [dp, name] dp
        (.parsed (.obj [("outputDir", .str dv), ("outputName", .str nv)]))
        (.returns true eff) d0).exportCall.map (fun c => (c.1, c.2.1))
      = some ("", name) ∧
    (runInteractive [dp, name] dp
        (.parsed (.obj [("outputDir", .str dv), ("outputName", .str nv)]))
        (.returns true eff) d0).lines[2]? = some "OUTPUT_DIR:" ∧
    (runInteractive [dp, name] dp
        (.parsed (.obj [("outputDir", .str dv), ("outputName", .str nv)]))
        (.returns true eff) d0).lines[6]? = some ("OUTPUT_PATH:" ++ name) := by
  have hargs : parseArgs [dp, name] = (some dp, some name) := by
    simp [parseArgs, argStep, hdp, hname]
  have heff : effInput [dp, name] dp = dp := by
    unfold effInput; rw [hargs]; exact por_self dp
  have hdir : dirname name = "" := dirname_noSlash name hslash
  have hbase : basename name = name := basename_noSlash name hslash
  have hjoin : pyJoin "" name = name := pyJoin_empty name
  have hrw : runInteractive [dp, name] dp
      (.parsed (.obj [("outputDir", .str dv), ("outputName", .str nv)]))
      (.returns true eff) d0
    = exportTail (if dp ≠ "" then (.obj [("outputDir", .str dv), ("outputName", .str nv)])
          else (.obj []))
        [] dp dp (some name) (.returns true eff) d0 := by
    rw [runInteractive_eq, heff, hargs, por_self]
    by_cases hdp0 : dp = ""
    · rw [if_neg (not_not_intro hdp0), if_neg (not_not_intro hdp0)]
    · rw [if_pos hdp0, if_pos hdp0]
      rfl
  rw [hrw]
  by_cases hdp0 : dp = ""
  · rw [if_neg (not_not_intro hdp0)]
    simp [exportTail, dictGet, lookupLast, buildOptionsJ, IFC_VERSIONS_get,
      resolveOutput, pyStrOf, withTx_returns, hne, hdir, hbase, hjoin]
  · rw [if_pos hdp0]
    simp [exportTail, dictGet, lookupLast, buildOptionsJ, IFC_VERSIONS_get,
      resolveOutput, pyStrOf, withTx_returns, hne, hdir, hbase, hjoin]

/-- Witness for C10's theorem: output argument `out.ifc` with a sidecar that
does supply `outputDir` and `outputName`. -/
theorem bareOutputName_emptyDir_witness :
    pyStartsWith "/m/a.rvt" "--" = false ∧ pyStartsWith "out.ifc" "--" = false ∧
    ("out.ifc" : String) ≠ "" ∧ '/' ∉ ("out.ifc" : String).data ∧
    ((runInteractive ["/m/a.rvt", "out.ifc"] "/m/a.rvt"
        (.parsed (.obj [("outputDir", .str "/x"), ("outputName", .str "z.ifc")]))
        (.returns true id) 0).exportCall.map (fun c => (c.1, c.2.1))
      = some ("", "out.ifc") ∧
    (runInteractive ["/m/a.rvt", "out.ifc"] "/m/a.rvt"
        (.parsed (.obj [("outputDir", .str "/x"), ("outputName", .str "z.ifc")]))
        (.returns true id) 0).lines[2]? = some "OUTPUT_DIR:" ∧
    (runInteractive ["/m/a.rvt", "out.ifc"] "/m/a.rvt"
        (.parsed (.obj [("outputDir", .str "/x"), ("outputName", .str "z.ifc")]))
        (.returns true id) 0).lines[6]? = some ("OUTPUT_PATH:" ++ "out.ifc")) :=
  ⟨by decide, by decide, by decide, by decide,
    bareOutputName_emptyDir "/m/a.rvt" "out.ifc" "/x" "z.ifc" id 0
      (by decide) (by decide) (by decide) (by decide)⟩

end RevitIfc
